import Mathlib

/-!
Shallow embedding of the JWT authentication/authorization gate of the
Boilerplate-NodeBackend repository, covering:

* `src/middlewares/auth.middleware.ts` — `createAuthMiddleware`, `hasRoles`,
  `generateToken` (HTTP transport);
* `src/middlewares/socket.middleware.ts` — `createSocketAuthMiddleware`,
  `createSocketRolesMiddleware` (Socket.IO transport).

Modelling conventions:

* Claim values that the gate reads (`sub`, `id`, `email`) are modelled as
  absent-or-string (`Option String`); `roles` as absent-or-list-of-strings.
  JavaScript string truthiness (`x || y`) is modelled by `orElseStr`:
  a string is falsy exactly when it is empty, and `undefined` is falsy.
* The two middleware factories close over the container-resolved secret and
  return a function of the request/socket; the embedding applies them, taking
  the verifier outcome (`jwt.verify`) as a function argument so that theorems
  quantify over what the external library may do. A thrown JS error is an
  `Except.error`; `jwt.TokenExpiredError` and `jwt.JsonWebTokenError` are the
  two `instanceof` classes the catch blocks test for.
* `res.status(s).json({message})` followed by `return` is the terminal
  `HttpResult.respond s message`; calling `next()` is `HttpResult.nextCalled u`
  where `u` is the value of `req.user` at that point (`none` when no principal
  was attached). The Socket.IO continuation `next(new Error(m))` is
  `SocketResult.nextErr m` and plain `next()` is `SocketResult.nextOk u` with
  `u` the value of `socket.data.user`.
-/

/-- JavaScript `s.split(sep)` for a single-character separator, over the
character list: split at every occurrence of `sep`, keeping empty pieces
(`"".split(' ')` is `[""]`, `"a  b".split(' ')` is `["a", "", "b"]`). -/
def jsSplitAux (sep : Char) : List Char → List Char → List String
  | [], acc => [String.mk acc.reverse]
  | c :: cs, acc =>
    if c = sep then String.mk acc.reverse :: jsSplitAux sep cs []
    else jsSplitAux sep cs (c :: acc)

/-- JavaScript `s.split(sep)` for a single-character separator. -/
def jsSplit (s : String) (sep : Char) : List String :=
  jsSplitAux sep s.data []

/-- JavaScript `a || b` where `a` is a string-or-undefined expression:
the result is `a` when `a` is defined and truthy (non-empty), else `b`. -/
def orElseStr (a : Option String) (b : String) : String :=
  match a with
  | some s => if s = "" then b else s
  | none => b

/-- JavaScript falsiness of a string-or-undefined value (`!x` for
`x : string | undefined`): true for `undefined` and for the empty string. -/
def jsFalsyO : Option String → Bool
  | none => true
  | some s => s = ""

/-- The decoded JWT claims fields that the gates read. Other claim fields pass
through both merge orders identically and are not tracked. `none` means the
key is absent from the decoded object. `roles` is kept as absent-or-array
(the domain on which `Array.isArray(decoded.roles)` is `decoded.roles` is
present). -/
structure Claims where
  sub : Option String := none
  id : Option String := none
  email : Option String := none
  roles : Option (List String) := none
deriving DecidableEq, Repr

/-- The value returned by `jwt.verify` on success: either an object (claims
map) or a primitive (e.g. a plain string payload). The gates test
`decoded && typeof decoded === 'object'`. -/
inductive DecodedVal where
  | obj (c : Claims)
  | prim (s : String)
deriving DecidableEq, Repr

/-- A thrown JavaScript error, as classified by the catch blocks:
`jwt.TokenExpiredError`, `jwt.JsonWebTokenError`, or anything else. -/
inductive JsError where
  | tokenExpiredError
  | jsonWebTokenError
  | generic (msg : String)
deriving DecidableEq, Repr

/-- The user object both gates attach (`req.user` / `socket.data.user`).
`sub` is the passthrough copy of the raw `sub` claim produced by the spread. -/
structure Principal where
  id : String
  email : String
  roles : Option (List String)
  sub : Option String
deriving DecidableEq, Repr

/-- The object literal at `auth.middleware.ts:68-73` (and identically at
`socket.middleware.ts:58-63`):

```js
{ id: decoded.sub || decoded.id || '',
  email: decoded.email || '',
  roles: Array.isArray(decoded.roles) ? decoded.roles : [],
  ...decoded }
```

JS object spread applies keys left to right, so `...decoded`, written last,
overwrites each of the three computed fields whenever `decoded` has a key of
that name. With `roles` restricted to absent-or-array, `Array.isArray` is the
presence test. -/
def mkUser (decoded : Claims) : Principal :=
  let normId := orElseStr decoded.sub (orElseStr decoded.id "")
  let normEmail := orElseStr decoded.email ""
  let normRoles : List String := match decoded.roles with
    | some rs => rs
    | none => []
  { id := match decoded.id with
      | some v => v
      | none => normId
  , email := match decoded.email with
      | some v => v
      | none => normEmail
  , roles := some (match decoded.roles with
      | some rs => rs
      | none => normRoles)
  , sub := decoded.sub }

/-- Outcome of one run of an Express middleware from the gate:
either a terminal `res.status(s).json({message})`, or `next()` with the
value of `req.user` when `next` ran. -/
inductive HttpResult where
  | respond (status : Nat) (message : String)
  | nextCalled (user : Option Principal)
deriving DecidableEq, Repr

/-- The middleware returned by `createAuthMiddleware`
(`auth.middleware.ts:45-89`), applied to a request whose
`req.headers.authorization` is `authHeader`. `verify` is the behaviour of
`jwt.verify (token, secret)` for the closed-over secret. -/
def createAuthMiddleware (verify : String → Except JsError DecodedVal)
    (authHeader : Option String) : HttpResult :=
  if jsFalsyO authHeader then
    .respond 401 "No authorization header provided"
  else
    let parts := jsSplit (authHeader.getD "") ' '
    if parts.length ≠ 2 ∨ parts.head? ≠ some "Bearer" then
      .respond 401 "Authorization header format should be \"Bearer {token}\""
    else
      let token := parts.getD 1 ""
      match verify token with
      | .ok decoded =>
        .nextCalled (match decoded with
          | .obj c => some (mkUser c)
          | .prim _ => none)
      | .error .tokenExpiredError => .respond 401 "Token expired"
      | .error .jsonWebTokenError => .respond 401 "Invalid token format"
      | .error (.generic _) => .respond 401 "Invalid token"

/-- The middleware returned by `hasRoles (roles)`
(`auth.middleware.ts:97-114`), applied to a request whose `req.user` is
`user`. -/
def hasRoles (roles : List String) (user : Option Principal) : HttpResult :=
  match user with
  | none => .respond 401 "User not authenticated"
  | some u =>
    let userRoles := u.roles.getD []
    let hasRequiredRoles := roles.any (fun role => userRoles.contains role)
    if hasRequiredRoles then .nextCalled (some u)
    else .respond 403 "Insufficient permissions"

/-- The socket handshake data the realtime gate reads:
`socket.handshake.auth?.token` (optional chaining flattened into one
absent-or-string field) and `socket.handshake.headers.authorization`. -/
structure Handshake where
  authToken : Option String
  authorization : Option String
deriving DecidableEq, Repr

/-- A socket argument as the untyped JS middleware may receive it: either a
well-formed handshake, or an object whose handshake/field access throws
(e.g. `socket.handshake.headers` is `undefined`), modelled by the error the
access raises. -/
inductive SocketInput where
  | wellFormed (h : Handshake)
  | faulty (e : JsError)
deriving DecidableEq, Repr

/-- Value of the local variable `token` after the extraction block at
`socket.middleware.ts:37-48`: start from `socket.handshake.auth?.token`; when
that is falsy and the authorization header is truthy, split the header on a
space and overwrite `token` with the second part when there are exactly two
parts and the first is `"Bearer"`; otherwise `token` keeps its value. -/
def extractedToken (h : Handshake) : Option String :=
  let token := h.authToken
  if jsFalsyO token && !jsFalsyO h.authorization then
    let parts := jsSplit (h.authorization.getD "") ' '
    if parts.length = 2 ∧ parts.head? = some "Bearer" then
      some (parts.getD 1 "")
    else token
  else token

/-- Field access of a `SocketInput` during extraction: a faulty socket throws. -/
def extractToken : SocketInput → Except JsError (Option String)
  | .wellFormed h => .ok (extractedToken h)
  | .faulty e => .error e

/-- Outcome of one run of the Socket.IO middleware: the continuation called
with an error message, or called with no argument after attaching `user` to
`socket.data` (`none` when nothing was attached). -/
inductive SocketResult where
  | nextErr (message : String)
  | nextOk (user : Option Principal)
deriving DecidableEq, Repr

/-- Body of the middleware returned by `createSocketAuthMiddleware`
(`socket.middleware.ts:35-80`), i.e. everything inside the outer `try`:
extraction, the falsy-token check, and the inner `try`/`catch` around
`jwt.verify` that classifies verification failures. An uncaught error of this
body is an `Except.error`. -/
def socketAuthBody (verify : String → Except JsError DecodedVal)
    (s : SocketInput) : Except JsError SocketResult := do
  let token ← extractToken s
  if jsFalsyO token then
    return .nextErr "Authentication required"
  else
    match verify (token.getD "") with
    | .ok decoded =>
      return .nextOk (match decoded with
        | .obj c => some (mkUser c)
        | .prim _ => none)
    | .error .tokenExpiredError => return .nextErr "Token expired"
    | .error .jsonWebTokenError => return .nextErr "Invalid token format"
    | .error (.generic _) => return .nextErr "Invalid token"

/-- The middleware returned by `createSocketAuthMiddleware`
(`socket.middleware.ts:34-84`): the outer `try`/`catch` turns any error the
body did not already classify into `next(new Error('Authentication failed'))`. -/
def createSocketAuthMiddleware (verify : String → Except JsError DecodedVal)
    (s : SocketInput) : SocketResult :=
  match socketAuthBody verify s with
  | .ok r => r
  | .error _ => .nextErr "Authentication failed"

/-- The middleware returned by `createSocketRolesMiddleware (roles)`
(`socket.middleware.ts:92-110`), applied to a socket whose
`socket.data.user` is `user`. -/
def createSocketRolesMiddleware (roles : List String)
    (user : Option Principal) : SocketResult :=
  match user with
  | none => .nextErr "User not authenticated"
  | some u =>
    let userRoles := u.roles.getD []
    let hasRequiredRoles := roles.any (fun role => userRoles.contains role)
    if !hasRequiredRoles then .nextErr "Insufficient permissions"
    else .nextOk (some u)

/-- Modelled from the spec: the external `jsonwebtoken` signer/verifier is not
part of this repository; §4.1/§4.4 fix only its contract. A signed token
records the payload verbatim together with the signing secret and the
issued-at/expiry instants the signer adds (tracked as token metadata, since
the gate never reads them back out of the claims); `expiresIn` is in seconds
(the spec's `"1h"` is 3600). -/
structure SignedToken where
  payload : Claims
  secret : String
  iat : Nat
  exp : Nat
deriving DecidableEq, Repr

/-- `generateToken (payload, secret, expiresIn)` at `auth.middleware.ts:123-126`:
a pure wrapper over `jwt.sign (payload, secret, {expiresIn})`, with the signer
modelled from the spec (§4.4) as recording its arguments plus `iat`/`exp`. -/
def generateToken (payload : Claims) (secret : String) (expiresIn : Nat)
    (now : Nat) : SignedToken :=
  { payload := payload, secret := secret, iat := now, exp := now + expiresIn }

/-- Modelled from the spec: `jwt.verify (token, secret)` per §4.1 — succeeds
with the embedded claims object iff the secret matches and the validity
window has not elapsed; a wrong secret throws `JsonWebTokenError`, an elapsed
window throws `TokenExpiredError`. -/
def jwtVerify (t : SignedToken) (secret : String) (now : Nat) :
    Except JsError DecodedVal :=
  if secret ≠ t.secret then .error .jsonWebTokenError
  else if t.exp ≤ now then .error .tokenExpiredError
  else .ok (.obj t.payload)

/-- C1: evaluation of the gate at the failing input: for verified claims
`{sub: "admin", id: "guest"}` the realtime gate attaches a Principal whose
`id` is the raw claim value `"guest"`, although the normalized value
(`decoded.sub || decoded.id || ''`) is `"admin"` — the `...decoded` spread is
written last, so raw claims overwrite the normalized fields, contradicting
the claimed merge order. -/
theorem spread_overwrites_normalized_id :
    createSocketAuthMiddleware
        (fun _ => .ok (.obj { sub := some "admin", id := some "guest" }))
        (.wellFormed { authToken := some "tok", authorization := none })
      = .nextOk (some { id := "guest", email := "", roles := some [], sub := some "admin" })
  ∧ orElseStr (some "admin") (orElseStr (some "guest") "") = "admin"
  ∧ ("guest" : String) ≠ "admin" := by
  refine ⟨by decide, by decide, by decide⟩

/-- C2: evaluation of the HTTP gate at the failing input: a token whose
claims are `{sub: "a", id: "b"}` verifies, but the attached Principal's `id`
is `"b"` (the raw `id` claim), not the `sub` claim `"a"` the claim requires,
because the `...decoded` spread overwrites the computed
`decoded.sub || decoded.id || ''`. -/
theorem http_gate_raw_id_overrides_sub :
    createAuthMiddleware (fun _ => .ok (.obj { sub := some "a", id := some "b" }))
        (some "Bearer t")
      = .nextCalled (some { id := "b", email := "", roles := some [], sub := some "a" })
  ∧ ("b" : String) ≠ "a" := by
  refine ⟨by decide, by decide⟩

/-- C3: whenever the HTTP gate reaches verification (header present,
non-empty, exactly two space-separated parts starting with `Bearer`) and the
verifier throws, the response is 401 with "Token expired" for
`TokenExpiredError`, "Invalid token format" for any other
`JsonWebTokenError`, and "Invalid token" for any other thrown error; in all
three cases the result is a `respond`, so no Principal is attached and
`next` is not invoked. -/
theorem verify_failure_responses (verify : String → Except JsError DecodedVal)
    (h : String) (hne : h ≠ "")
    (hlen : (jsSplit h ' ').length = 2)
    (hbearer : (jsSplit h ' ').head? = some "Bearer") :
    (verify ((jsSplit h ' ').getD 1 "") = .error .tokenExpiredError →
       createAuthMiddleware verify (some h) = .respond 401 "Token expired")
  ∧ (verify ((jsSplit h ' ').getD 1 "") = .error .jsonWebTokenError →
       createAuthMiddleware verify (some h) = .respond 401 "Invalid token format")
  ∧ (∀ m, verify ((jsSplit h ' ').getD 1 "") = .error (.generic m) →
       createAuthMiddleware verify (some h) = .respond 401 "Invalid token") := by
  have hlt : 1 < (jsSplit h ' ').length := by omega
  refine ⟨fun hv => ?_, fun hv => ?_, fun m hv => ?_⟩ <;>
  · rw [List.getD_eq_getElem _ _ hlt] at hv
    simp [createAuthMiddleware, jsFalsyO, hne, hlen, hbearer, hv]

/-- Witness for C3 at the concrete header `"Bearer tok"` and a verifier that
throws `TokenExpiredError`. -/
theorem verify_failure_responses_witness :
    createAuthMiddleware (fun _ => Except.error JsError.tokenExpiredError)
        (some "Bearer tok")
      = .respond 401 "Token expired" :=
  (verify_failure_responses (fun _ => Except.error JsError.tokenExpiredError)
    "Bearer tok" (by decide) (by decide) (by decide)).1 rfl

/-- C4: the realtime gate is total — its result is always a continuation
call (`nextErr` or `nextOk`), and any error of the body (extraction or
verification) that the inner classification did not already turn into one of
the three messages is caught by the outer handler and becomes
`next(new Error('Authentication failed'))`. -/
theorem socket_gate_never_propagates (verify : String → Except JsError DecodedVal)
    (s : SocketInput) :
    ((∃ m, createSocketAuthMiddleware verify s = .nextErr m) ∨
       (∃ u, createSocketAuthMiddleware verify s = .nextOk u))
  ∧ (∀ e, socketAuthBody verify s = .error e →
       createSocketAuthMiddleware verify s = .nextErr "Authentication failed") := by
  constructor
  · rcases hr : createSocketAuthMiddleware verify s with m | u
    · exact Or.inl ⟨m, rfl⟩
    · exact Or.inr ⟨u, rfl⟩
  · intro e he
    simp [createSocketAuthMiddleware, he]

/-- Witness for C4 at a socket whose handshake access throws a generic
error. -/
theorem socket_gate_never_propagates_witness :
    createSocketAuthMiddleware (fun _ => Except.ok (DecodedVal.prim "x"))
        (.faulty (.generic "boom"))
      = .nextErr "Authentication failed" :=
  (socket_gate_never_propagates (fun _ => Except.ok (DecodedVal.prim "x"))
    (.faulty (.generic "boom"))).2 (.generic "boom") rfl

/-- C5: with a Principal attached, both role gates pass exactly when some
required role is among the Principal's roles (logical OR / non-empty
intersection); the decision is invariant under permutation and duplication
in either list (stated via membership equivalence); and an empty
intersection makes the HTTP variant respond 403 "Insufficient permissions"
(and the realtime variant fail the continuation with the same message). -/
theorem role_gate_intersection (required : List String) (u : Principal) :
    (hasRoles required (some u) = .nextCalled (some u) ↔
       ∃ r, r ∈ required ∧ r ∈ u.roles.getD [])
  ∧ ((¬ ∃ r, r ∈ required ∧ r ∈ u.roles.getD []) →
       hasRoles required (some u) = .respond 403 "Insufficient permissions")
  ∧ (createSocketRolesMiddleware required (some u) = .nextOk (some u) ↔
       ∃ r, r ∈ required ∧ r ∈ u.roles.getD [])
  ∧ ((¬ ∃ r, r ∈ required ∧ r ∈ u.roles.getD []) →
       createSocketRolesMiddleware required (some u) = .nextErr "Insufficient permissions")
  ∧ (∀ (required' : List String) (u' : Principal),
       (∀ x, x ∈ required ↔ x ∈ required') →
       (∀ x, x ∈ u.roles.getD [] ↔ x ∈ u'.roles.getD []) →
       (hasRoles required (some u) = .nextCalled (some u) ↔
          hasRoles required' (some u') = .nextCalled (some u'))) := by
  have hdec : ∀ (req rs : List String),
      (req.any (fun role => rs.contains role) = true) ↔ ∃ r, r ∈ req ∧ r ∈ rs := by
    intro req rs
    simp [List.any_eq_true]
  have hH : ∀ (req : List String) (v : Principal),
      hasRoles req (some v) = .nextCalled (some v) ↔
        ∃ r, r ∈ req ∧ r ∈ v.roles.getD [] := by
    intro req v
    by_cases hb : (req.any (fun role => (v.roles.getD []).contains role)) = true
    · simp [hasRoles, hb, (hdec _ _).mp hb]
    · have hno : ¬ ∃ r, r ∈ req ∧ r ∈ v.roles.getD [] :=
        fun hx => hb ((hdec _ _).mpr hx)
      simp [hasRoles, hb, hno]
  have hS : ∀ (req : List String) (v : Principal),
      createSocketRolesMiddleware req (some v) = .nextOk (some v) ↔
        ∃ r, r ∈ req ∧ r ∈ v.roles.getD [] := by
    intro req v
    by_cases hb : (req.any (fun role => (v.roles.getD []).contains role)) = true
    · simp [createSocketRolesMiddleware, hb, (hdec _ _).mp hb]
    · have hno : ¬ ∃ r, r ∈ req ∧ r ∈ v.roles.getD [] :=
        fun hx => hb ((hdec _ _).mpr hx)
      simp [createSocketRolesMiddleware, hb, hno]
  refine ⟨hH required u, fun hno => ?_, hS required u, fun hno => ?_, ?_⟩
  · have hb : ¬ (required.any (fun role => (u.roles.getD []).contains role)) = true :=
      fun hb => hno ((hdec _ _).mp hb)
    simp [hasRoles, hb, hno]
  · have hb : ¬ (required.any (fun role => (u.roles.getD []).contains role)) = true :=
      fun hb => hno ((hdec _ _).mp hb)
    simp [createSocketRolesMiddleware, hb, hno]
  · intro required' u' hreq hur
    rw [hH required u, hH required' u']
    constructor
    · rintro ⟨r, h1, h2⟩
      exact ⟨r, (hreq r).mp h1, (hur r).mp h2⟩
    · rintro ⟨r, h1, h2⟩
      exact ⟨r, (hreq r).mpr h1, (hur r).mpr h2⟩

/-- Witness for C5: duplicating roles in both lists does not change the
pass/reject decision. -/
theorem role_gate_intersection_witness :
    hasRoles ["admin"] (some { id := "1", email := "", roles := some ["user"], sub := none })
        = .nextCalled (some { id := "1", email := "", roles := some ["user"], sub := none })
      ↔ hasRoles ["admin", "admin"]
          (some { id := "1", email := "", roles := some ["user", "user"], sub := none })
        = .nextCalled (some { id := "1", email := "", roles := some ["user", "user"], sub := none }) :=
  (role_gate_intersection ["admin"]
      { id := "1", email := "", roles := some ["user"], sub := none }).2.2.2.2
    ["admin", "admin"] { id := "1", email := "", roles := some ["user", "user"], sub := none }
    (by simp) (by simp)

/-- C6 counterexample: the auth-payload token field is present (it holds the
empty string), yet the extracted token is taken from the Authorization
header instead, so the gate does not take the token from the auth-payload
field whenever it is present — only when it is present and truthy. -/
theorem socket_auth_payload_empty_not_taken :
    extractedToken { authToken := some "", authorization := some "Bearer abc" } = some "abc"
  ∧ ({ authToken := some "", authorization := some "Bearer abc" } : Handshake).authToken = some ""
  ∧ (some "abc" : Option String) ≠ some "" := by
  refine ⟨by decide, by decide, by decide⟩

/-- C6 (amended): the realtime gate takes the token from the auth-payload
field when that field is present and non-empty; otherwise, when the
Authorization header is present and non-empty it uses the second part of the
header when it splits on a space into exactly `["Bearer", token]`, and any
other header shape leaves the token as it was (treated as no token found,
not a format error); the gate fails with "Authentication required" whenever
the resulting token is absent or empty. -/
theorem socket_token_extraction_order (hs : Handshake) :
    (jsFalsyO hs.authToken = false → extractedToken hs = hs.authToken)
  ∧ (jsFalsyO hs.authToken = true → jsFalsyO hs.authorization = true →
       extractedToken hs = hs.authToken)
  ∧ (∀ hdr, jsFalsyO hs.authToken = true → hs.authorization = some hdr → hdr ≠ "" →
       (((jsSplit hdr ' ').length = 2 ∧ (jsSplit hdr ' ').head? = some "Bearer") →
          extractedToken hs = some ((jsSplit hdr ' ').getD 1 ""))
     ∧ (¬ ((jsSplit hdr ' ').length = 2 ∧ (jsSplit hdr ' ').head? = some "Bearer") →
          extractedToken hs = hs.authToken))
  ∧ (∀ verify, jsFalsyO (extractedToken hs) = true →
       createSocketAuthMiddleware verify (.wellFormed hs) = .nextErr "Authentication required") := by
  refine ⟨fun hf => ?_, fun hf hg => ?_, fun hdr hf hh hne => ?_, fun verify hf => ?_⟩
  · simp [extractedToken, hf]
  · simp [extractedToken, hf, hg]
  · have hga : jsFalsyO (some hdr) = false := by simp [jsFalsyO, hne]
    exact ⟨fun hok => by simp [extractedToken, hf, hh, hga, hok],
      fun hbad => by simp [extractedToken, hf, hh, hga, hbad]⟩
  · simp [createSocketAuthMiddleware, socketAuthBody, extractToken, hf, Bind.bind,
      Except.bind, Pure.pure, Except.pure]

/-- Witness for C6 (amended) at a handshake with neither token source. -/
theorem socket_token_extraction_order_witness :
    createSocketAuthMiddleware (fun _ => Except.ok (DecodedVal.prim "x"))
        (.wellFormed { authToken := none, authorization := none })
      = .nextErr "Authentication required" :=
  (socket_token_extraction_order { authToken := none, authorization := none }).2.2.2
    (fun _ => Except.ok (DecodedVal.prim "x")) rfl

/-- C7 counterexample: a request carrying an empty Authorization header —
which does not split into two parts with first part "Bearer" — is answered
with "No authorization header provided", not with the format message the
claim requires for every header failing the split rule. -/
theorem http_empty_header_message :
    ((jsSplit "" ' ').length ≠ 2)
  ∧ createAuthMiddleware (fun _ => Except.ok (DecodedVal.prim "x")) (some "")
      = .respond 401 "No authorization header provided"
  ∧ ("No authorization header provided" : String)
      ≠ "Authorization header format should be \"Bearer {token}\"" := by
  refine ⟨by decide, by decide, by decide⟩

/-- C7 (amended): the HTTP gate responds 401 "No authorization header
provided" when the header is absent or empty, and 401 with the format
message when a non-empty header does not split on a single space into
exactly two parts with first part "Bearer"; in both cases the response is
the same for every verifier, i.e. the verifier is never consulted. -/
theorem http_header_gate (hdr : Option String) :
    (jsFalsyO hdr = true →
       ∀ verify, createAuthMiddleware verify hdr = .respond 401 "No authorization header provided")
  ∧ (∀ h, hdr = some h → h ≠ "" →
       ((jsSplit h ' ').length ≠ 2 ∨ (jsSplit h ' ').head? ≠ some "Bearer") →
       ∀ verify, createAuthMiddleware verify hdr
         = .respond 401 "Authorization header format should be \"Bearer {token}\"") := by
  constructor
  · intro hf verify
    simp [createAuthMiddleware, hf]
  · rintro h rfl hne hbad verify
    simp [createAuthMiddleware, jsFalsyO, hne, hbad]

/-- Witness for C7 (amended) at the header `"Token abc"` (wrong scheme). -/
theorem http_header_gate_witness :
    createAuthMiddleware (fun _ => Except.ok (DecodedVal.prim "x")) (some "Token abc")
      = .respond 401 "Authorization header format should be \"Bearer {token}\"" :=
  (http_header_gate (some "Token abc")).2 "Token abc" rfl (by decide) (by decide)
    (fun _ => Except.ok (DecodedVal.prim "x"))

/-- C8: round-trip — issuing a token for payload `{id: "u1"}` with some
secret and a one-hour window and verifying it with the same secret inside
the window yields the claims object containing `id: "u1"`, the Principal the
gate builds from those claims has `id = "u1"`, and the HTTP gate run with
that verification attaches exactly that Principal. The signer/verifier pair
is modelled from the spec (§4.1/§4.4). -/
theorem jwt_round_trip (secret : String) (iss now : Nat) (hwin : now < iss + 3600) :
    jwtVerify (generateToken { id := some "u1" } secret 3600 iss) secret now
      = .ok (.obj { id := some "u1" })
  ∧ (mkUser { id := some "u1" }).id = "u1"
  ∧ createAuthMiddleware
      (fun _ => jwtVerify (generateToken { id := some "u1" } secret 3600 iss) secret now)
      (some "Bearer signed")
      = .nextCalled (some (mkUser { id := some "u1" })) := by
  have hv : jwtVerify (generateToken { id := some "u1" } secret 3600 iss) secret now
      = .ok (.obj { id := some "u1" }) := by
    simp [jwtVerify, generateToken]
    omega
  have hgen : ∀ res : Except JsError DecodedVal, res = .ok (.obj { id := some "u1" }) →
      createAuthMiddleware (fun _ => res) (some "Bearer signed")
        = .nextCalled (some (mkUser { id := some "u1" })) := by
    rintro res rfl
    decide
  exact ⟨hv, rfl, by rw [show (fun _ : String => jwtVerify (generateToken { id := some "u1" } secret 3600 iss) secret now) = (fun _ : String => (Except.ok (DecodedVal.obj { id := some "u1" }) : Except JsError DecodedVal)) from funext fun _ => hv] ; exact hgen _ rfl⟩

/-- Witness for C8 with secret `"s"`, issued at 0, verified at 10. -/
theorem jwt_round_trip_witness :
    jwtVerify (generateToken { id := some "u1" } "s" 3600 0) "s" 10
      = .ok (.obj { id := some "u1" })
  ∧ (mkUser { id := some "u1" }).id = "u1"
  ∧ createAuthMiddleware
      (fun _ => jwtVerify (generateToken { id := some "u1" } "s" 3600 0) "s" 10)
      (some "Bearer signed")
      = .nextCalled (some (mkUser { id := some "u1" })) :=
  jwt_round_trip "s" 0 10 (by decide)

/-- C9: when verification succeeds with a primitive (non-object) value, the
HTTP gate calls `next` without attaching a user and the realtime gate calls
the continuation with no error and nothing attached; a subsequent role check
on the unauthenticated carrier then rejects with "User not authenticated" on
both transports. -/
theorem primitive_claims_attach_nothing (verify : String → Except JsError DecodedVal)
    (p : String) (h : String) (hs : Handshake) (tk : String)
    (hne : h ≠ "")
    (hlen : (jsSplit h ' ').length = 2)
    (hbearer : (jsSplit h ' ').head? = some "Bearer")
    (hv1 : verify ((jsSplit h ' ').getD 1 "") = .ok (.prim p))
    (hex : extractedToken hs = some tk) (htk : tk ≠ "")
    (hv2 : verify tk = .ok (.prim p)) :
    createAuthMiddleware verify (some h) = .nextCalled none
  ∧ createSocketAuthMiddleware verify (.wellFormed hs) = .nextOk none
  ∧ ∀ roles, hasRoles roles none = .respond 401 "User not authenticated"
      ∧ createSocketRolesMiddleware roles none = .nextErr "User not authenticated" := by
  have hlt : 1 < (jsSplit h ' ').length := by omega
  rw [List.getD_eq_getElem _ _ hlt] at hv1
  refine ⟨?_, ?_, fun roles => ⟨rfl, rfl⟩⟩
  · simp [createAuthMiddleware, jsFalsyO, hne, hlen, hbearer, hv1]
  · simp [createSocketAuthMiddleware, socketAuthBody, extractToken, hex, jsFalsyO, htk, hv2,
      Bind.bind, Except.bind, Pure.pure, Except.pure]

/-- Witness for C9 with a verifier that returns the primitive `"x"`. -/
theorem primitive_claims_attach_nothing_witness :
    createAuthMiddleware (fun _ => Except.ok (DecodedVal.prim "x")) (some "Bearer t")
      = .nextCalled none
  ∧ createSocketAuthMiddleware (fun _ => Except.ok (DecodedVal.prim "x"))
      (.wellFormed { authToken := some "t", authorization := none })
      = .nextOk none :=
  ⟨(primitive_claims_attach_nothing (fun _ => Except.ok (DecodedVal.prim "x")) "x"
      "Bearer t" { authToken := some "t", authorization := none } "t"
      (by decide) (by decide) (by decide) rfl rfl (by decide) rfl).1,
   (primitive_claims_attach_nothing (fun _ => Except.ok (DecodedVal.prim "x")) "x"
      "Bearer t" { authToken := some "t", authorization := none } "t"
      (by decide) (by decide) (by decide) rfl rfl (by decide) rfl).2.1⟩

/-- C10: the role gates invoked with an empty required-role list reject every
attached Principal — `[].some` is false for any predicate, so the HTTP
variant responds 403 "Insufficient permissions" and the realtime variant
fails the continuation with the same message. -/
theorem empty_required_roles_reject (u : Principal) :
    hasRoles [] (some u) = .respond 403 "Insufficient permissions"
  ∧ createSocketRolesMiddleware [] (some u) = .nextErr "Insufficient permissions" := by
  exact ⟨by simp [hasRoles], by simp [createSocketRolesMiddleware]⟩
